import Mathlib

/-!
Shallow embedding of `mapper.py`: the data-processing pipeline of the
logbook analyzer (airport reference loading, airport-code canonicalization,
route parsing, logbook filtering, landing-set derivation).

Python strings are modelled as Lean `String`; the Python string operations
used by the source (`str.strip`, `str.split('-')`, `str.startswith`,
slicing, `sorted`) are embedded as structural recursion over the string's
character list, mirroring Python's semantics (code-point comparison,
whitespace stripping at both ends, split keeping empty parts).
Pandas dataframes are modelled as lists of records; `print` diagnostics as
an explicit list of emitted lines; `None` / missing values as `Option`.
-/

/-- One row of the airport catalog, with the fields the pipeline reads:
`ident` (the index key after `set_index('ident')`), `continent`,
`local_code` (possibly missing) and `iso_region`.  Coordinates and the
derived geometry feed only the excluded plotting step and are omitted. -/
structure AirportRecord where
  ident : String
  continent : String
  local_code : Option String
  iso_region : String
deriving DecidableEq, Repr

/-- The airport reference table (`AirportDatabase.__init__`): the catalog
restricted to rows with `continent == 'NA'`, indexed by `ident`.
`pandas.DataFrame.set_index` is called without `verify_integrity`, so it
does not check uniqueness of the identifiers: duplicate rows are kept. -/
structure AirportDatabase where
  records : List AirportRecord
deriving DecidableEq, Repr

/-- `AirportDatabase.__init__`: `df = df[df['continent'] == 'NA']` followed
by `df.set_index('ident')` (no uniqueness check, no failure path). -/
def AirportDatabase.load (catalog : List AirportRecord) : AirportDatabase :=
  ⟨catalog.filter (fun r => r.continent == "NA")⟩

/-- `x in self.df.index`: membership of a string among the table's
identifiers. -/
def AirportDatabase.hasIdent (db : AirportDatabase) (s : String) : Bool :=
  db.records.any (fun r => r.ident == s)

/-- `AirportDatabase.canonicalize_airport_code`, with the `print` side
effect made explicit: returns the result (`None` ↦ `none`) together with
the list of diagnostic lines printed.  The `len(local) == 1` test and
`local.index[0]` are the match on a singleton filter result. -/
def AirportDatabase.canonicalize_airport_code (db : AirportDatabase)
    (code : String) : Option String × List String :=
  if db.hasIdent ("K" ++ code) then (some ("K" ++ code), [])
  else if db.hasIdent ("C" ++ code) then (some ("C" ++ code), [])
  else if db.hasIdent code then (some code, [])
  else
    match db.records.filter (fun r => r.local_code == some code) with
    | [r] => (some r.ident, [])
    | _ => (none, ["Unknown airport: " ++ code])

/-- The return value of `canonicalize_airport_code` (ignoring stdout). -/
def AirportDatabase.canonicalize (db : AirportDatabase) (code : String) :
    Option String :=
  (db.canonicalize_airport_code code).1

/-- Python `str.strip()` on the character list: whitespace removed from
both ends. -/
def stripChars (l : List Char) : List Char :=
  ((l.dropWhile Char.isWhitespace).reverse.dropWhile Char.isWhitespace).reverse

/-- Python `str.strip()`. -/
def pyStrip (s : String) : String := ⟨stripChars s.data⟩

/-- Python `str.split('-')` on the character list: split at every `'-'`,
keeping empty parts; the split of `""` is `[""]`. -/
def splitDash : List Char → List (List Char)
  | [] => [[]]
  | c :: rest =>
    match splitDash rest with
    | [] => [[c]]
    | p :: ps => if c = '-' then [] :: p :: ps else (c :: p) :: ps

/-- Python `str.split('-')`. -/
def pySplit (s : String) : List String :=
  (splitDash s.data).map (fun part => ⟨part⟩)

/-- A cell of the logbook's `Route` column: either a string, or a
non-string value (e.g. the `NaN` of a blank cell). -/
inductive RouteCell where
  | str (s : String)
  | nonString
deriving DecidableEq, Repr

/-- `AirportDatabase.split_valid_route`: the route parser.  Non-strings are
rejected; the text is stripped and split on `-`; fewer than 2 or more than
9 parts, or any part whose length is neither 3 nor 4, reject the route;
every part is canonicalized and a single failed canonicalization
invalidates the whole route; otherwise the canonical identifiers are
returned in order. -/
def AirportDatabase.split_valid_route (db : AirportDatabase)
    (route : RouteCell) : Option (List String) :=
  match route with
  | .nonString => none
  | .str s =>
    let codes := pySplit (pyStrip s)
    if codes.length < 2 ∨ 9 < codes.length then none
    else if codes.any (fun c => c.length != 3 && c.length != 4) then none
    else
      let canon := codes.map db.canonicalize
      if canon.contains none then none
      else some (canon.map (fun o => o.getD ""))

/-- The logbook after `Logbook.__init__`: each retained row paired with its
parsed route (`df['codes']`); rows whose parse failed are dropped
(`df = df[~df['codes'].isna()]`). -/
structure Logbook where
  rows : List (RouteCell × List String)
deriving DecidableEq, Repr

/-- `Logbook.__init__`, applied to the `Route` column of the spreadsheet:
apply the route parser to every row and keep exactly the rows with a valid
parse. -/
def Logbook.build (db : AirportDatabase) (routeColumn : List RouteCell) :
    Logbook :=
  ⟨routeColumn.filterMap
    (fun r => (db.split_valid_route r).map (fun codes => (r, codes)))⟩

/-- Python string `<=` (lexicographic by code point), used by `sorted`. -/
def lexLe : List Char → List Char → Bool
  | [], _ => true
  | _ :: _, [] => false
  | a :: as, b :: bs => if a < b then true else if a = b then lexLe as bs else false

/-- Insertion step of the sort. -/
def insertStr (x : String) : List String → List String
  | [] => [x]
  | y :: ys => if lexLe x.data y.data then x :: y :: ys else y :: insertStr x ys

/-- Python `sorted` on a list of strings (insertion sort; the source only
depends on the output being sorted and a permutation). -/
def sortStrs : List String → List String
  | [] => []
  | x :: xs => insertStr x (sortStrs xs)

/-- `Landings.__init__`, first statement:
`sorted(set(airport for route in logbook.df['codes'] for airport in route))`
— the deduplicated, sorted list of every airport identifier occurring in
any retained route. -/
def landing_airports (logbook : Logbook) : List String :=
  sortStrs ((logbook.rows.map Prod.snd).flatten.dedup)

/-- `airport_db.df.loc[labels]`: look each label up in the table; a missing
label raises `KeyError`, modelled as `none`. -/
def locJoin (records : List AirportRecord) : List String → Option (List AirportRecord)
  | [] => some []
  | i :: is =>
    match records.find? (fun r => r.ident == i), locJoin records is with
    | some r, some rest => some (r :: rest)
    | _, _ => none

/-- `Landings.__init__`: the airport records of the landing set, via the
label join. -/
def buildLandings (db : AirportDatabase) (logbook : Logbook) :
    Option (List AirportRecord) :=
  locJoin db.records (landing_airports logbook)

/-- `region.startswith('US-')`. -/
def isUSRegion (region : String) : Bool :=
  "US-".data.isPrefixOf region.data

/-- `get_landing_state_codes`: the set of `iso_region` values of the
landing airports, kept when they start with `"US-"` and stripped of that
prefix (`region[3:]`). -/
def get_landing_state_codes (landings : List AirportRecord) : List String :=
  (((landings.map (fun r => r.iso_region)).dedup).filterMap
    (fun region => if isUSRegion region then some (region.drop 3) else none)).dedup

/-- A concrete airport catalog used to instantiate the theorems: US and
Canadian airports, an identifier that is also known without prefix, a
record reachable only through its `local_code`, two records sharing a
`local_code`, and a non-North-American record dropped at load time. -/
def exampleCatalog : List AirportRecord :=
  [⟨"KSMO", "NA", some "SMO", "US-CA"⟩,
   ⟨"KRNT", "NA", some "RNT", "US-WA"⟩,
   ⟨"CYVR", "NA", some "YVR", "CA-BC"⟩,
   ⟨"SMO", "NA", none, "US-CA"⟩,
   ⟨"7S3", "NA", none, "US-OR"⟩,
   ⟨"WN53", "NA", some "W53", "US-WA"⟩,
   ⟨"XAAA", "NA", some "DUP", "US-CA"⟩,
   ⟨"XBBB", "NA", some "DUP", "US-NV"⟩,
   ⟨"EGLL", "EU", none, "GB-ENG"⟩]

/-- The loaded example reference table. -/
def exampleDb : AirportDatabase := AirportDatabase.load exampleCatalog
/-- The head surviving `dropWhile p` does not satisfy `p`. -/
theorem head?_dropWhile_false {α : Type} (p : α → Bool) (l : List α) {c : α}
    (h : (List.dropWhile p l).head? = some c) : p c = false := by
  have hh := List.head?_dropWhile_not p l
  rw [h] at hh
  simpa using hh

/-- `dropWhile` is the identity when the head does not satisfy `p`. -/
theorem dropWhile_eq_self_of_head {α : Type} (p : α → Bool) {l : List α}
    (h : ∀ c, l.head? = some c → p c = false) : List.dropWhile p l = l := by
  cases l with
  | nil => rfl
  | cons a t => simp [List.dropWhile_cons, h a rfl]

/-- A nonempty `dropWhile` keeps the last element of the list. -/
theorem getLast?_dropWhile {α : Type} (p : α → Bool) (l : List α)
    (hne : List.dropWhile p l ≠ []) :
    (List.dropWhile p l).getLast? = l.getLast? := by
  obtain ⟨t, ht⟩ := List.dropWhile_suffix (l := l) p
  conv_rhs => rw [← ht]
  rw [List.getLast?_append]
  cases hg : (List.dropWhile p l).getLast? with
  | none => exact absurd (by simpa using hg) hne
  | some x => rfl

/-- Stripping whitespace from both ends is idempotent. -/
theorem stripChars_idem (l : List Char) : stripChars (stripChars l) = stripChars l := by
  unfold stripChars
  have hhead : List.dropWhile Char.isWhitespace
      ((List.dropWhile Char.isWhitespace
        (List.dropWhile Char.isWhitespace l).reverse).reverse)
      = (List.dropWhile Char.isWhitespace
        (List.dropWhile Char.isWhitespace l).reverse).reverse := by
    apply dropWhile_eq_self_of_head
    intro c hc
    rw [List.head?_reverse] at hc
    have hbne : List.dropWhile Char.isWhitespace
        (List.dropWhile Char.isWhitespace l).reverse ≠ [] := by
      intro h
      rw [h] at hc
      simp at hc
    rw [getLast?_dropWhile _ _ hbne, List.getLast?_reverse] at hc
    exact head?_dropWhile_false _ _ hc
  rw [hhead, List.reverse_reverse, List.dropWhile_idempotent]

/-- `pyStrip` is idempotent. -/
theorem pyStrip_idem (s : String) : pyStrip (pyStrip s) = pyStrip s :=
  congrArg String.mk (stripChars_idem s.data)
/-- Inserting into the sort is a permutation of consing. -/
theorem insertStr_perm (x : String) (l : List String) :
    (insertStr x l).Perm (x :: l) := by
  induction l with
  | nil => simp [insertStr]
  | cons y ys ih =>
    rw [insertStr]
    split
    · exact List.Perm.refl _
    · exact (List.Perm.cons y ih).trans (List.Perm.swap x y ys)

/-- The insertion sort permutes its input. -/
theorem sortStrs_perm (l : List String) : (sortStrs l).Perm l := by
  induction l with
  | nil => exact List.Perm.refl _
  | cons x xs ih => exact (insertStr_perm x (sortStrs xs)).trans (List.Perm.cons x ih)

/-- A successful canonicalization always returns an identifier present in
the reference table. -/
theorem canonicalize_mem_ident (db : AirportDatabase) (c x : String)
    (h : db.canonicalize c = some x) : ∃ r ∈ db.records, r.ident = x := by
  unfold AirportDatabase.canonicalize AirportDatabase.canonicalize_airport_code at h
  by_cases h1 : db.hasIdent ("K" ++ c) = true
  · rw [if_pos h1] at h
    simp at h
    subst h
    obtain ⟨r, hr, hid⟩ := List.any_eq_true.mp h1
    exact ⟨r, hr, by simpa using hid⟩
  · rw [if_neg h1] at h
    by_cases h2 : db.hasIdent ("C" ++ c) = true
    · rw [if_pos h2] at h
      simp at h
      subst h
      obtain ⟨r, hr, hid⟩ := List.any_eq_true.mp h2
      exact ⟨r, hr, by simpa using hid⟩
    · rw [if_neg h2] at h
      by_cases h3 : db.hasIdent c = true
      · rw [if_pos h3] at h
        simp at h
        subst h
        obtain ⟨r, hr, hid⟩ := List.any_eq_true.mp h3
        exact ⟨r, hr, by simpa using hid⟩
      · rw [if_neg h3] at h
        cases hf : db.records.filter (fun r => r.local_code == some c) with
        | nil => rw [hf] at h; simp at h
        | cons r t =>
          cases t with
          | nil =>
            rw [hf] at h
            simp at h
            have hrmem : r ∈ db.records.filter (fun r => r.local_code == some c) := by
              rw [hf]; exact List.mem_singleton.mpr rfl
            exact ⟨r, (List.mem_filter.mp hrmem).1, h⟩
          | cons r' t' => rw [hf] at h; simp at h

/-- The `None in codes` membership test of the parser, as a statement about
the canonicalizer. -/
theorem contains_none_map_canonicalize (db : AirportDatabase) (codes : List String) :
    ((codes.map db.canonicalize).contains none = true) ↔
      ∃ c ∈ codes, db.canonicalize c = none := by
  simp [List.contains, eq_comm]

/-- C1: canonicalizer priority order: a known `K`-prefixed form wins, then
a known `C`-prefixed form, then the code itself. -/
theorem canonicalize_priority (db : AirportDatabase) (c : String) :
    (db.hasIdent ("K" ++ c) = true → db.canonicalize c = some ("K" ++ c)) ∧
    (db.hasIdent ("K" ++ c) = false → db.hasIdent ("C" ++ c) = true →
      db.canonicalize c = some ("C" ++ c)) ∧
    (db.hasIdent ("K" ++ c) = false → db.hasIdent ("C" ++ c) = false →
      db.hasIdent c = true → db.canonicalize c = some c) := by
  refine ⟨?_, ?_, ?_⟩
  · intro h1
    unfold AirportDatabase.canonicalize AirportDatabase.canonicalize_airport_code
    rw [if_pos h1]
  · intro h1 h2
    unfold AirportDatabase.canonicalize AirportDatabase.canonicalize_airport_code
    rw [if_neg (by simp [h1]), if_pos h2]
  · intro h1 h2 h3
    unfold AirportDatabase.canonicalize AirportDatabase.canonicalize_airport_code
    rw [if_neg (by simp [h1]), if_neg (by simp [h2]), if_pos h3]

/-- C1 witness: `"SMO"` resolves to `"KSMO"` although `"SMO"` itself is a
known identifier of the example table; `"YVR"` to `"CYVR"`; `"7S3"` to
itself. -/
theorem canonicalize_priority_witness :
    exampleDb.hasIdent "SMO" = true ∧
    exampleDb.canonicalize "SMO" = some "KSMO" ∧
    exampleDb.canonicalize "YVR" = some "CYVR" ∧
    exampleDb.canonicalize "7S3" = some "7S3" :=
  ⟨by decide,
   (canonicalize_priority exampleDb "SMO").1 (by decide),
   (canonicalize_priority exampleDb "YVR").2.1 (by decide) (by decide),
   (canonicalize_priority exampleDb "7S3").2.2 (by decide) (by decide) (by decide)⟩

/-- C2: all-or-nothing canonicalization: a route that passes the shape
heuristics but has one unresolvable segment is Invalid as a whole. -/
theorem split_valid_route_all_or_nothing (db : AirportDatabase) (s : String)
    (h2 : 2 ≤ (pySplit (pyStrip s)).length)
    (h9 : (pySplit (pyStrip s)).length ≤ 9)
    (hlen : ∀ c ∈ pySplit (pyStrip s), c.length = 3 ∨ c.length = 4)
    (hbad : ∃ c ∈ pySplit (pyStrip s), db.canonicalize c = none) :
    db.split_valid_route (.str s) = none := by
  simp only [AirportDatabase.split_valid_route]
  rw [if_neg (by omega)]
  have hany : (pySplit (pyStrip s)).any (fun c => c.length != 3 && c.length != 4) = false := by
    rw [Bool.eq_false_iff]
    intro hcontra
    obtain ⟨c, hc, hbool⟩ := List.any_eq_true.mp hcontra
    rcases hlen c hc with h | h <;> simp [h] at hbool
  rw [if_neg (by simp [hany]), if_pos ((contains_none_map_canonicalize db _).mpr hbad)]

/-- C2 witness: `"SMO-ZZZ"` is Invalid, not a partial `["KSMO"]`. -/
theorem split_valid_route_all_or_nothing_witness :
    exampleDb.split_valid_route (.str "SMO-ZZZ") = none :=
  split_valid_route_all_or_nothing exampleDb "SMO-ZZZ"
    (by decide) (by decide) (by decide) (by decide)

/-- C4: a route passing the shape heuristics whose segments all
canonicalize parses to the ordered list of canonical identifiers, one per
input segment. -/
theorem split_valid_route_success (db : AirportDatabase) (s : String)
    (h2 : 2 ≤ (pySplit (pyStrip s)).length)
    (h9 : (pySplit (pyStrip s)).length ≤ 9)
    (hlen : ∀ c ∈ pySplit (pyStrip s), c.length = 3 ∨ c.length = 4)
    (hok : ∀ c ∈ pySplit (pyStrip s), (db.canonicalize c).isSome = true) :
    db.split_valid_route (.str s)
      = some ((pySplit (pyStrip s)).map (fun c => (db.canonicalize c).getD "")) ∧
    ((pySplit (pyStrip s)).map (fun c => (db.canonicalize c).getD "")).length
      = (pySplit (pyStrip s)).length := by
  refine ⟨?_, List.length_map _ _⟩
  simp only [AirportDatabase.split_valid_route]
  rw [if_neg (by omega)]
  have hany : (pySplit (pyStrip s)).any (fun c => c.length != 3 && c.length != 4) = false := by
    rw [Bool.eq_false_iff]
    intro hcontra
    obtain ⟨c, hc, hbool⟩ := List.any_eq_true.mp hcontra
    rcases hlen c hc with h | h <;> simp [h] at hbool
  rw [if_neg (by simp [hany])]
  have hcont : ((pySplit (pyStrip s)).map db.canonicalize).contains none = false := by
    rw [Bool.eq_false_iff]
    intro hcontra
    obtain ⟨c, hc, hnone⟩ := (contains_none_map_canonicalize db _).mp hcontra
    have hsome := hok c hc
    rw [hnone] at hsome
    simp at hsome
  rw [if_neg (by simp only [hcont]; exact Bool.false_ne_true), List.map_map]
  rfl

/-- C4 witness: `parse("SMO-RNT")` against the example table yields
`["KSMO", "KRNT"]`. -/
theorem split_valid_route_success_witness :
    exampleDb.split_valid_route (.str "SMO-RNT") = some ["KSMO", "KRNT"] :=
  ((split_valid_route_success exampleDb "SMO-RNT"
    (by decide) (by decide) (by decide) (by decide)).1).trans (by decide)

/-- C5: when no prefixed or exact identifier matches, a unique
`local_code` match resolves to that record's identifier; zero or several
matches print the unknown-airport diagnostic and return NotFound. -/
theorem canonicalize_local_fallback (db : AirportDatabase) (c : String)
    (hK : db.hasIdent ("K" ++ c) = false)
    (hC : db.hasIdent ("C" ++ c) = false)
    (hP : db.hasIdent c = false) :
    (∀ r : AirportRecord,
      db.records.filter (fun x => x.local_code == some c) = [r] →
      db.canonicalize_airport_code c = (some r.ident, [])) ∧
    ((db.records.filter (fun x => x.local_code == some c)).length ≠ 1 →
      db.canonicalize_airport_code c = (none, ["Unknown airport: " ++ c])) := by
  constructor
  · intro r hr
    unfold AirportDatabase.canonicalize_airport_code
    rw [if_neg (by simp [hK]), if_neg (by simp [hC]), if_neg (by simp [hP]), hr]
  · intro hlen
    unfold AirportDatabase.canonicalize_airport_code
    rw [if_neg (by simp [hK]), if_neg (by simp [hC]), if_neg (by simp [hP])]
    cases hf : db.records.filter (fun x => x.local_code == some c) with
    | nil => rfl
    | cons r t =>
      cases t with
      | nil => exact absurd (by rw [hf]; rfl) hlen
      | cons r' t' => rfl

/-- C5 witness: in the example table `"W53"` resolves through its unique
`local_code` to `"WN53"`; `"ZZZ"` (no match) and `"DUP"` (two matches)
print the diagnostic and return NotFound. -/
theorem canonicalize_local_fallback_witness :
    exampleDb.canonicalize_airport_code "W53" = (some "WN53", []) ∧
    exampleDb.canonicalize_airport_code "ZZZ" = (none, ["Unknown airport: ZZZ"]) ∧
    exampleDb.canonicalize_airport_code "DUP" = (none, ["Unknown airport: DUP"]) := by
  refine ⟨?_, ?_, ?_⟩
  · exact ((canonicalize_local_fallback exampleDb "W53"
      (by decide) (by decide) (by decide)).1 ⟨"WN53", "NA", some "W53", "US-WA"⟩
      (by decide)).trans (by decide)
  · exact ((canonicalize_local_fallback exampleDb "ZZZ"
      (by decide) (by decide) (by decide)).2 (by decide)).trans (by decide)
  · exact ((canonicalize_local_fallback exampleDb "DUP"
      (by decide) (by decide) (by decide)).2 (by decide)).trans (by decide)

/-- C10: the route text is stripped before splitting, so surrounding
whitespace never changes the parse; whitespace between segments counts
toward segment length and can invalidate the route. -/
theorem split_valid_route_strip :
    (∀ (db : AirportDatabase) (s : String),
      db.split_valid_route (.str s) = db.split_valid_route (.str (pyStrip s))) ∧
    exampleDb.split_valid_route (.str "KSMO - KRNT") = none ∧
    exampleDb.split_valid_route (.str "  SMO-RNT  ") = some ["KSMO", "KRNT"] := by
  refine ⟨?_, by decide, by decide⟩
  intro db s
  simp only [AirportDatabase.split_valid_route]
  rw [pyStrip_idem]

/-- C6 counterexample: a catalog with two records sharing the identifier
`"KAAA"` loads without any error and the table keeps both duplicate
records — the load neither aborts nor overwrites. -/
theorem load_duplicate_ident_counterexample :
    (AirportDatabase.load
        [⟨"KAAA", "NA", none, "US-CA"⟩, ⟨"KAAA", "NA", none, "US-NV"⟩]).records
      = [⟨"KAAA", "NA", none, "US-CA"⟩, ⟨"KAAA", "NA", none, "US-NV"⟩] := by
  decide

/-- C6 (amended): loading performs no identifier-uniqueness check:
every North-American record of the catalog is retained, so duplicated
identifiers survive the load with their multiplicity. -/
theorem load_duplicates_retained (catalog : List AirportRecord) (i : String)
    (h : 2 ≤ catalog.countP (fun r => r.ident == i && r.continent == "NA")) :
    2 ≤ (AirportDatabase.load catalog).records.countP (fun r => r.ident == i) := by
  unfold AirportDatabase.load
  rw [List.countP_filter]
  exact h

/-- C6 witness: the duplicate catalog instantiates the amended claim. -/
theorem load_duplicates_retained_witness :
    2 ≤ (AirportDatabase.load
        [⟨"KAAA", "NA", none, "US-CA"⟩, ⟨"KAAA", "NA", none, "US-NV"⟩]).records.countP
        (fun r => r.ident == "KAAA") :=
  load_duplicates_retained
    [⟨"KAAA", "NA", none, "US-CA"⟩, ⟨"KAAA", "NA", none, "US-NV"⟩] "KAAA" (by decide)

/-- C7: the landing set is exactly the deduplicated union of the
identifiers of all retained routes, and the region set is exactly the set
of `"US-"`-stripped region codes of the landing airports whose region
carries that prefix (a landing airport without it contributes nothing). -/
theorem landing_and_region_sets (logbook : Logbook) (landings : List AirportRecord) :
    ((∀ i : String, i ∈ landing_airports logbook ↔
        ∃ codes ∈ logbook.rows.map Prod.snd, i ∈ codes) ∧
      (landing_airports logbook).Nodup) ∧
    (∀ x : String, x ∈ get_landing_state_codes landings ↔
      ∃ r ∈ landings, isUSRegion r.iso_region = true ∧ x = r.iso_region.drop 3) := by
  refine ⟨⟨?_, ?_⟩, ?_⟩
  · intro i
    unfold landing_airports
    rw [(sortStrs_perm _).mem_iff, List.mem_dedup, List.mem_flatten]
  · exact ((sortStrs_perm _).nodup_iff).mpr (List.nodup_dedup _)
  · intro x
    unfold get_landing_state_codes
    rw [List.mem_dedup, List.mem_filterMap]
    constructor
    · rintro ⟨region, hregion, hx⟩
      rw [List.mem_dedup, List.mem_map] at hregion
      obtain ⟨r, hr, rfl⟩ := hregion
      by_cases hus : isUSRegion r.iso_region = true
      · rw [if_pos hus] at hx
        exact ⟨r, hr, hus, (Option.some_inj.mp hx).symm⟩
      · rw [if_neg hus] at hx
        simp at hx
    · rintro ⟨r, hr, hus, rfl⟩
      refine ⟨r.iso_region, ?_, by rw [if_pos hus]⟩
      rw [List.mem_dedup, List.mem_map]
      exact ⟨r, hr, rfl⟩

/-- A retained logbook row's parsed route is exactly what the route parser
returned for its cell. -/
theorem logbook_row_parse (db : AirportDatabase) (rows : List RouteCell)
    (p : RouteCell × List String) (hp : p ∈ (Logbook.build db rows).rows) :
    db.split_valid_route p.1 = some p.2 := by
  unfold Logbook.build at hp
  rw [List.mem_filterMap] at hp
  obtain ⟨r, _, heq⟩ := hp
  cases h : db.split_valid_route r with
  | none => rw [h] at heq; simp at heq
  | some cs =>
    rw [h] at heq
    simp at heq
    rw [← heq]
    exact h

/-- Every identifier a successful parse returns is an identifier of the
reference table. -/
theorem split_valid_route_mem_ident (db : AirportDatabase) (cell : RouteCell)
    (codes : List String) (h : db.split_valid_route cell = some codes) :
    ∀ i ∈ codes, ∃ r ∈ db.records, r.ident = i := by
  intro i hi
  cases cell with
  | nonString => simp [AirportDatabase.split_valid_route] at h
  | str s =>
    simp only [AirportDatabase.split_valid_route] at h
    by_cases hc1 : (pySplit (pyStrip s)).length < 2 ∨ 9 < (pySplit (pyStrip s)).length
    · rw [if_pos hc1] at h; simp at h
    · rw [if_neg hc1] at h
      cases hc2 : (pySplit (pyStrip s)).any (fun c => c.length != 3 && c.length != 4) with
      | true => rw [if_pos hc2] at h; simp at h
      | false =>
        rw [if_neg (by simp only [hc2]; exact Bool.false_ne_true)] at h
        cases hc3 : ((pySplit (pyStrip s)).map db.canonicalize).contains none with
        | true => rw [if_pos hc3] at h; simp at h
        | false =>
          rw [if_neg (by simp only [hc3]; exact Bool.false_ne_true)] at h
          rw [← Option.some_inj.mp h] at hi
          rw [List.map_map, List.mem_map] at hi
          obtain ⟨c, hcmem, hci⟩ := hi
          cases hcan : db.canonicalize c with
          | none =>
            exfalso
            have : ((pySplit (pyStrip s)).map db.canonicalize).contains none = true :=
              (contains_none_map_canonicalize db _).mpr ⟨c, hcmem, hcan⟩
            rw [hc3] at this
            exact Bool.false_ne_true this
          | some y =>
            have : i = y := by
              rw [← hci]
              simp [Function.comp, hcan]
            rw [this]
            exact canonicalize_mem_ident db c y hcan

/-- The label join succeeds on any list of identifiers present in the
table. -/
theorem locJoin_isSome (records : List AirportRecord) (l : List String)
    (h : ∀ i ∈ l, ∃ r ∈ records, r.ident = i) : (locJoin records l).isSome = true := by
  induction l with
  | nil => rfl
  | cons i is ih =>
    obtain ⟨r, hr, hid⟩ := h i (List.mem_cons_self i is)
    have hfind : (records.find? (fun x => x.ident == i)).isSome = true :=
      List.find?_isSome.mpr ⟨r, hr, by simp [hid]⟩
    obtain ⟨r0, hr0⟩ := Option.isSome_iff_exists.mp hfind
    have hrest : (locJoin records is).isSome = true :=
      ih (fun j hj => h j (List.mem_cons_of_mem i hj))
    obtain ⟨rest, hrest0⟩ := Option.isSome_iff_exists.mp hrest
    simp [locJoin, hr0, hrest0]

/-- C8: round trip: every identifier of every retained route is in the
landing set, and the join of the landing set against the reference table
cannot fail, because every identifier a route carries was produced by
canonicalization against that same table. -/
theorem landing_set_round_trip (db : AirportDatabase) (cells : List RouteCell) :
    (∀ codes ∈ (Logbook.build db cells).rows.map Prod.snd, ∀ i ∈ codes,
      i ∈ landing_airports (Logbook.build db cells)) ∧
    (buildLandings db (Logbook.build db cells)).isSome = true := by
  constructor
  · intro codes hcodes i hi
    unfold landing_airports
    rw [(sortStrs_perm _).mem_iff, List.mem_dedup, List.mem_flatten]
    exact ⟨codes, hcodes, hi⟩
  · unfold buildLandings
    apply locJoin_isSome
    intro i hi
    unfold landing_airports at hi
    rw [(sortStrs_perm _).mem_iff, List.mem_dedup, List.mem_flatten] at hi
    obtain ⟨codes, hcodes, hi⟩ := hi
    rw [List.mem_map] at hcodes
    obtain ⟨p, hp, rfl⟩ := hcodes
    exact split_valid_route_mem_ident db p.1 p.2 (logbook_row_parse db cells p hp) i hi

/-- C8 witness: with the example table and a logbook of one valid route,
one note and one blank cell, `"KSMO"` lands in the landing set and the
join succeeds. -/
theorem landing_set_round_trip_witness :
    "KSMO" ∈ landing_airports
      (Logbook.build exampleDb [.str "SMO-RNT", .str "Annual inspection", .nonString]) ∧
    (buildLandings exampleDb
      (Logbook.build exampleDb [.str "SMO-RNT", .str "Annual inspection", .nonString])).isSome
      = true :=
  ⟨(landing_set_round_trip exampleDb
      [.str "SMO-RNT", .str "Annual inspection", .nonString]).1
      ["KSMO", "KRNT"] (by decide) "KSMO" (by decide),
   (landing_set_round_trip exampleDb
      [.str "SMO-RNT", .str "Annual inspection", .nonString]).2⟩

/-- C9: the logbook loader keeps exactly the rows whose route text parses
to a valid route, in order, pairing each with its parse; every other row
is dropped (the loader is total: dropping is silent, not a failure). -/
theorem logbook_filtering (db : AirportDatabase) (rows : List RouteCell) :
    ((Logbook.build db rows).rows.map Prod.fst
      = rows.filter (fun r => (db.split_valid_route r).isSome)) ∧
    (∀ p ∈ (Logbook.build db rows).rows, db.split_valid_route p.1 = some p.2) := by
  refine ⟨?_, fun p hp => logbook_row_parse db rows p hp⟩
  unfold Logbook.build
  induction rows with
  | nil => rfl
  | cons r rs ih =>
    simp only [List.filterMap_cons, List.filter_cons]
    cases h : db.split_valid_route r with
    | none => simpa [h] using ih
    | some cs => simpa [h] using ih

/-- C9 witness: one valid route is retained with its parse; a note and a
blank cell are dropped. -/
theorem logbook_filtering_witness :
    (Logbook.build exampleDb [.str "SMO-RNT", .str "Annual inspection", .nonString]).rows.map
        Prod.fst
      = [.str "SMO-RNT"] ∧
    exampleDb.split_valid_route (RouteCell.str "SMO-RNT") = some ["KSMO", "KRNT"] :=
  ⟨((logbook_filtering exampleDb
      [.str "SMO-RNT", .str "Annual inspection", .nonString]).1).trans (by decide),
   (logbook_filtering exampleDb
      [.str "SMO-RNT", .str "Annual inspection", .nonString]).2
      (.str "SMO-RNT", ["KSMO", "KRNT"]) (by decide)⟩
/-- C3: the route parser's rejection heuristics. -/
theorem route_rejection_heuristics :
    (∀ db : AirportDatabase, db.split_valid_route .nonString = none) ∧
    (∀ (db : AirportDatabase) (s : String),
      (pySplit (pyStrip s)).length < 2 ∨ 9 < (pySplit (pyStrip s)).length →
      db.split_valid_route (.str s) = none) ∧
    (∀ (db : AirportDatabase) (s : String) (c : String),
      c ∈ pySplit (pyStrip s) → c.length ≠ 3 → c.length ≠ 4 →
      db.split_valid_route (.str s) = none) := by
  refine ⟨fun db => rfl, ?_, ?_⟩
  · intro db s h
    simp only [AirportDatabase.split_valid_route]
    rw [if_pos h]
  · intro db s c hmem h3 h4
    simp only [AirportDatabase.split_valid_route]
    by_cases hcount : (pySplit (pyStrip s)).length < 2 ∨ 9 < (pySplit (pyStrip s)).length
    · rw [if_pos hcount]
    · rw [if_neg hcount]
      have hany : (pySplit (pyStrip s)).any (fun c => c.length != 3 && c.length != 4) = true :=
        List.any_eq_true.mpr ⟨c, hmem, by simp [h3, h4]⟩
      rw [if_pos hany]

/-- C3 witness: a one-segment note, and a short segment, are rejected. -/
theorem route_rejection_heuristics_witness :
    exampleDb.split_valid_route .nonString = none ∧
    exampleDb.split_valid_route (.str "Annual inspection") = none ∧
    exampleDb.split_valid_route (.str "SM-RNT") = none :=
  ⟨route_rejection_heuristics.1 exampleDb,
   route_rejection_heuristics.2.1 exampleDb "Annual inspection" (by decide),
   route_rejection_heuristics.2.2 exampleDb "SM-RNT" "SM" (by decide) (by decide) (by decide)⟩
